import Mathlib

/-!
Shallow embedding of the carbon-aware scheduling core of
`carbon-aware-compute/utils`:

* `compute_job_carbon_intensity` embeds
  `utils/job_intensity.py:compute_job_carbon_intensity` (filter the series to
  the inclusive window `[start, end]`, raise on empty, arithmetic mean of the
  `value` column).

* `schedule_job` embeds `utils/job_scheduler.py:schedule_job`
  (resample the *whole* dataset by `duration` taking per-bin means, then
  `idxmin` / `index[0]` / `idxmax`; `start_time` and `flex_window` are received
  but never used by the body; a `breakpoint()` call sits between the index
  computation and the value extraction; the extraction then raises
  `AttributeError` unconditionally at line 47, so the function never returns —
  the return statement of lines 50–54 is dead code).

Modelling choices, all visible below:

* Timestamps are minutes since an epoch midnight, as `Nat`; durations are
  minutes as `Nat` (a `pandas.Timedelta` of zero or negative length makes
  `resample` raise, modelled as the failure branch for `dur = 0`; negative
  spans are not representable).
* Carbon-intensity values are `ℚ` (the Python floats, modelled exactly).
* `DataFrame.resample(duration).mean()` groups rows into bins of width
  `duration` anchored at the start of the first sample's day
  (pandas' default `origin = start_day`, day = 1440 minutes), and emits the
  per-bin mean of `value` for each bin, in ascending bin order.  pandas also
  emits NaN rows for intermediate empty bins; those rows are skipped by
  `idxmin`/`idxmax` and can never be `index[0]` (the first bin contains the
  earliest sample), so the model keeps only the non-empty bins.  The
  non-numeric `version` column plays no role in the mean.
* The interactive `breakpoint()` on line 45 of `job_scheduler.py` is modelled
  as an element of an explicit effect trace returned alongside the outcome:
  the blocking effect is recorded, then the remaining lines run.
* The extraction lines 46–48: line 46 succeeds (`optimal_case_idx` is a
  one-entry `Series`, so `df.loc[optimal_case_idx]` is a one-row frame and
  `.to_dict()['value'].items()` yields the `(timestamp, mean)` pair), but
  line 47 indexes with the *scalar* `naive_case_idx`, so `df.loc[scalar]` is a
  `Series`, `.to_dict()['value']` is a bare float, and `.items()` raises
  `AttributeError: 'float' object has no attribute 'items'` — on every call
  that reaches it.  Line 48 and the `return` of lines 50–54 are therefore dead
  code: `schedule_job` never returns a result, and its success payload type
  below (the dict the dead return would build, with exactly the keys
  `"optimal"`, `"naive"`, `"worst"` and no `"median"`) is never constructed.
  The values the source *does* materialize before raising — the three selected
  indices (lines 40–42), the optimal `(timestamp, mean)` pair (line 46) and
  the naive mean float (line 47, read just before the failing `.items()`) —
  are modelled as the standalone definitions `optimal_carbon_intensity`,
  `naive_case_idx` and `selectedCases`.
* Exceptions are modelled as `Except`: `ValueError("No data points found
  within the specified time window")` is the `NoDataInWindow` error of the
  spec's taxonomy, the only failure of `compute_job_carbon_intensity`; the
  scheduler's failures are `PyError.valueError` (degenerate resample rule at
  line 37, or `idxmin` of an empty frame at line 40) and
  `PyError.attributeError` (line 47).
-/

/-- One row of the carbon-intensity dataset: `point_time` (minutes since the
epoch midnight) and `value` (gCO2/kWh).  The dataset's non-numeric `version`
column never influences any computation under study and is omitted. -/
structure Sample where
  point_time : Nat
  value : ℚ
  deriving DecidableEq

/-- The error taxonomy of `compute_job_carbon_intensity`: the
`ValueError("No data points found within the specified time window")` raised
on an empty filtered frame, named `NoDataInWindow` as in the spec. -/
inductive JobError where
  | NoDataInWindow
  deriving DecidableEq

/-- The row filter of `job_intensity.py` line 32:
`(point_time >= start) & (point_time <= end)` — inclusive at both ends. -/
def inWindow (start finish : Nat) (s : Sample) : Bool :=
  decide (start ≤ s.point_time) && decide (s.point_time ≤ finish)

/-- Embedding of `compute_job_carbon_intensity(start_time, end_time, ds)`:
filter the dataset to the inclusive window, raise `NoDataInWindow` when the
filtered frame is empty, otherwise return the arithmetic mean of `value`
(sum divided by row count — no weighting by sample spacing). -/
def compute_job_carbon_intensity (start finish : Nat) (ds : List Sample) :
    Except JobError ℚ :=
  let filtered_data := ds.filter (inWindow start finish)
  if filtered_data.isEmpty then
    .error .NoDataInWindow
  else
    .ok (((filtered_data.map Sample.value).sum) / (filtered_data.length : ℚ))

/-- Observable side effects of `schedule_job`: the interactive debugger stop
`breakpoint()` on line 45 of `job_scheduler.py`. -/
inductive Effect where
  | breakpoint
  deriving DecidableEq

/-- Midnight of the day containing minute `t` (day = 1440 minutes): pandas'
`origin = start_day` resampling anchor. -/
def dayStart (t : Nat) : Nat := t / 1440 * 1440

/-- Earliest timestamp of the dataset (the resample origin is taken from it);
`0` for an empty dataset, where the value is never used. -/
def minTime : List Sample → Nat
  | [] => 0
  | s :: ss => ss.foldl (fun a x => min a x.point_time) s.point_time

/-- Left edge of the resample bin containing minute `t`, for bins of width
`dur` anchored at `origin`. -/
def binKey (origin dur t : Nat) : Nat := origin + (t - origin) / dur * dur

/-- Insert a bin key into an ascending duplicate-free list of keys. -/
def insertKey (k : Nat) : List Nat → List Nat
  | [] => [k]
  | a :: as =>
    if k < a then k :: a :: as
    else if k = a then a :: as
    else a :: insertKey k as

/-- Ascending duplicate-free list of the bin keys occupied by the dataset. -/
def binKeys (origin dur : Nat) (ds : List Sample) : List Nat :=
  ds.foldl (fun acc s => insertKey (binKey origin dur s.point_time) acc) []

/-- The rows of the dataset falling in the bin with left edge `k`. -/
def binSamples (origin dur k : Nat) (ds : List Sample) : List Sample :=
  ds.filter (fun s => decide (binKey origin dur s.point_time = k))

/-- Embedding of `carbon_intensity_dataset.resample(duration).mean()`
(line 37 of `job_scheduler.py`): per-bin arithmetic means of `value`, one
`(bin left edge, mean)` pair per occupied bin, ascending by bin edge. -/
def resampleMean (dur : Nat) (ds : List Sample) : List (Nat × ℚ) :=
  let origin := dayStart (minTime ds)
  (binKeys origin dur ds).map fun k =>
    (k, ((binSamples origin dur k ds).map Sample.value).sum /
        ((binSamples origin dur k ds).length : ℚ))

/-- `DataFrame.idxmin` over the bin means: the first pair attaining the
minimum mean (first occurrence on ties, as pandas). -/
def pickMin (b : Nat × ℚ) (l : List (Nat × ℚ)) : Nat × ℚ :=
  l.foldl (fun best q => if q.2 < best.2 then q else best) b

/-- `DataFrame.idxmax` over the bin means: the first pair attaining the
maximum mean (first occurrence on ties, as pandas). -/
def pickMax (b : Nat × ℚ) (l : List (Nat × ℚ)) : Nat × ℚ :=
  l.foldl (fun best q => if best.2 < q.2 then q else best) b

/-- The exceptions `schedule_job` can raise: `valueError` for a degenerate
resample rule (line 37) or `idxmin` over an empty resampled frame (line 40,
reached before the breakpoint), and `attributeError` for line 47's
`.items()` call on the bare float `df.loc[naive_case_idx].to_dict()['value']`,
which fails on every call that reaches it. -/
inductive PyError where
  | valueError
  | attributeError
  deriving DecidableEq

/-- Embedding of `schedule_job(start_time, duration, flex_window, ds)`
(`job_scheduler.py` lines 6–54).  Exactly as in the source, `start_time` and
`flex_window` are parameters that the body never reads.  Control flow of a
call: a degenerate `Timedelta` makes `resample` raise at line 37 (`dur = 0`
here; non-positive spans are not representable in `Nat`); an empty resampled
frame makes `idxmin` raise at line 40, still before the breakpoint; otherwise
the indices of lines 40–42 are computed, `breakpoint()` is hit (line 45,
recorded in the effect trace), line 46 extracts the optimal pair — and
line 47 raises `AttributeError` (`.items()` on a float), so the call never
returns.  The success payload type is that of the dead return dict of
lines 50–54; no call constructs it.  (Under pandas ≥ 2 the call would already
raise at line 37 over the non-numeric `version` column; either way no call
returns.) -/
def schedule_job (start_time dur flex : Nat) (ds : List Sample) :
    List Effect × Except PyError (List (String × (Nat × ℚ))) :=
  if dur = 0 then ([], .error .valueError)
  else
    match resampleMean dur ds with
    | [] => ([], .error .valueError)
    | _ :: _ => ([Effect.breakpoint], .error .attributeError)

/-- The `(timestamp, mean)` pair bound to the variable
`optimal_carbon_intensity` by line 46 of `job_scheduler.py` — the one
extraction line that succeeds, just before line 47 raises: the `idxmin` bin
(line 40) of the globally resampled frame together with its mean.  `none`
when line 37 or line 40 raises instead. -/
def optimal_carbon_intensity (dur : Nat) (ds : List Sample) : Option (Nat × ℚ) :=
  if dur = 0 then none
  else
    match resampleMean dur ds with
    | [] => none
    | b :: bs => some (pickMin b bs)

/-- The timestamp bound to the variable `naive_case_idx` by line 41 of
`job_scheduler.py`: `index[0]` of the globally resampled frame — the naive
start time the code selects (its mean is read at line 47 immediately before
the failing `.items()` call, and is never returned).  `none` when line 37 or
line 40 raises instead. -/
def naive_case_idx (dur : Nat) (ds : List Sample) : Option Nat :=
  if dur = 0 then none
  else (resampleMean dur ds).head?.map Prod.fst

/-- The three `(timestamp, mean)` candidates `schedule_job` selects from the
globally resampled frame: the `idxmin` bin (line 40), the `index[0]` bin
(line 41) and the `idxmax` bin (line 42).  The source materializes the three
indices at lines 40–42, the optimal pair at line 46 and the naive mean at
line 47 (just before raising); the worst pair of line 48 is never reached,
and none of the three is ever returned.  `none` when line 37 or line 40
raises. -/
def selectedCases (dur : Nat) (ds : List Sample) :
    Option ((Nat × ℚ) × (Nat × ℚ) × (Nat × ℚ)) :=
  if dur = 0 then none
  else
    match resampleMean dur ds with
    | [] => none
    | b :: bs => some (pickMin b bs, b, pickMax b bs)

/-- The spec §8 scenario series: hourly samples with values `[50, 10, 30, 90]`
at `t = 0h, 1h, 2h, 3h` (in minutes: 0, 60, 120, 180). -/
def dsScen : List Sample :=
  [⟨0, 50⟩, ⟨60, 10⟩, ⟨120, 30⟩, ⟨180, 90⟩]

/-- A series extending before the job's `start_time`: samples at
`t = 0, 120, 180` minutes with values `5, 50, 60`. -/
def dsPre : List Sample :=
  [⟨0, 5⟩, ⟨120, 50⟩, ⟨180, 60⟩]

/-- A second series extending before the job's `start_time`: samples at
`t = 0, 120, 180` minutes with values `40, 20, 70`. -/
def dsPre2 : List Sample :=
  [⟨0, 40⟩, ⟨120, 20⟩, ⟨180, 70⟩]

/-- Witness dataset: a single sample at minute 300 with value 7. -/
def dsOne : List Sample := [⟨300, 7⟩]

/-- Witness dataset: two samples at minutes 0 and 60 with values 10 and 30. -/
def dsTwo : List Sample := [⟨0, 10⟩, ⟨60, 30⟩]

/-- Sum of a list of rationals all lying in `[lo, hi]` is between
`lo * length` and `hi * length`. -/
theorem sum_between (l : List ℚ) (lo hi : ℚ)
    (hb : ∀ x ∈ l, lo ≤ x ∧ x ≤ hi) :
    lo * l.length ≤ l.sum ∧ l.sum ≤ hi * l.length := by
  induction l with
  | nil => simp
  | cons a t ih =>
    obtain ⟨ha1, ha2⟩ := hb a (List.mem_cons_self a t)
    obtain ⟨ht1, ht2⟩ := ih fun x hx => hb x (List.mem_cons_of_mem a hx)
    simp only [List.sum_cons, List.length_cons, Nat.cast_add, Nat.cast_one]
    constructor
    · have he : lo * ((t.length : ℚ) + 1) = lo * t.length + lo := by ring
      rw [he]; linarith
    · have he : hi * ((t.length : ℚ) + 1) = hi * t.length + hi := by ring
      rw [he]; linarith

/-- C3: for every series and interval `[start, end]` holding at least one
sample, `compute_job_carbon_intensity` succeeds and returns exactly the
arithmetic mean (`mean * count = sum`) of the `value` fields of precisely the
samples whose timestamp `t` satisfies `start ≤ t ≤ end`, inclusive at both
ends, with no weighting by sample spacing. -/
theorem compute_mean_exact (ds : List Sample) (start finish : Nat)
    (h : ∃ s ∈ ds, start ≤ s.point_time ∧ s.point_time ≤ finish) :
    ∃ m, compute_job_carbon_intensity start finish ds = .ok m ∧
      m * ((ds.filter (inWindow start finish)).length : ℚ)
        = ((ds.filter (inWindow start finish)).map Sample.value).sum ∧
      ∀ s : Sample, s ∈ ds.filter (inWindow start finish)
        ↔ s ∈ ds ∧ start ≤ s.point_time ∧ s.point_time ≤ finish := by
  obtain ⟨s, hs, h1, h2⟩ := h
  have hmem : s ∈ ds.filter (inWindow start finish) :=
    List.mem_filter.mpr ⟨hs, by simp [inWindow, h1, h2]⟩
  have hne : ds.filter (inWindow start finish) ≠ [] := by
    intro hnil
    rw [hnil] at hmem
    exact absurd hmem (List.not_mem_nil s)
  have hempty : (ds.filter (inWindow start finish)).isEmpty = false := by
    cases hfe : ds.filter (inWindow start finish) with
    | nil => exact absurd hfe hne
    | cons a l => rfl
  have hlen : (0 : ℚ) < ((ds.filter (inWindow start finish)).length : ℚ) := by
    have hpos : 0 < (ds.filter (inWindow start finish)).length :=
      List.length_pos.mpr hne
    exact_mod_cast hpos
  refine ⟨((ds.filter (inWindow start finish)).map Sample.value).sum /
      ((ds.filter (inWindow start finish)).length : ℚ), ?_, ?_, ?_⟩
  · simp only [compute_job_carbon_intensity, hempty, Bool.false_eq_true, if_false]
  · exact div_mul_cancel₀ _ (ne_of_gt hlen)
  · intro t
    simp [List.mem_filter, inWindow, and_assoc]

/-- C3 witness: at the one-sample dataset `dsOne` and the window `[240, 300]`,
the hypotheses of `compute_mean_exact` hold and the theorem applies. -/
theorem compute_mean_exact_witness :
    ∃ m, compute_job_carbon_intensity 240 300 dsOne = .ok m ∧
      m * ((dsOne.filter (inWindow 240 300)).length : ℚ)
        = ((dsOne.filter (inWindow 240 300)).map Sample.value).sum ∧
      ∀ s : Sample, s ∈ dsOne.filter (inWindow 240 300)
        ↔ s ∈ dsOne ∧ 240 ≤ s.point_time ∧ s.point_time ≤ 300 :=
  compute_mean_exact dsOne 240 300
    ⟨⟨300, 7⟩, by simp [dsOne], by norm_num, by norm_num⟩

/-- C4: `compute_job_carbon_intensity` fails with `NoDataInWindow` exactly
when no sample lies in the inclusive window, and returns a numeric mean
exactly when some sample does — it never silently returns a number (such as 0)
for an empty window, and `ℚ` has no NaN. -/
theorem compute_error_iff_empty (ds : List Sample) (start finish : Nat) :
    (compute_job_carbon_intensity start finish ds = .error .NoDataInWindow
      ↔ ds.filter (inWindow start finish) = [])
    ∧ ((∃ m, compute_job_carbon_intensity start finish ds = .ok m)
      ↔ ds.filter (inWindow start finish) ≠ []) := by
  cases hfe : ds.filter (inWindow start finish) with
  | nil => simp [compute_job_carbon_intensity, hfe]
  | cons a l => simp [compute_job_carbon_intensity, hfe]

/-- C10: any successful mean returned by `compute_job_carbon_intensity` lies
between any lower bound `lo` and upper bound `hi` of the sample values inside
the window; with `lo = 0` this gives non-negativity of the mean whenever all
in-window sample values are non-negative. -/
theorem compute_mean_bounds (ds : List Sample) (start finish : Nat)
    (lo hi m : ℚ)
    (hm : compute_job_carbon_intensity start finish ds = .ok m)
    (hb : ∀ s ∈ ds, inWindow start finish s = true → lo ≤ s.value ∧ s.value ≤ hi) :
    lo ≤ m ∧ m ≤ hi := by
  by_cases he : (ds.filter (inWindow start finish)).isEmpty
  · simp [compute_job_carbon_intensity, he] at hm
  · have hm2 : ((ds.filter (inWindow start finish)).map Sample.value).sum /
        ((ds.filter (inWindow start finish)).length : ℚ) = m := by
      simpa [compute_job_carbon_intensity, he] using hm
    have hball : ∀ x ∈ (ds.filter (inWindow start finish)).map Sample.value,
        lo ≤ x ∧ x ≤ hi := by
      intro x hx
      obtain ⟨s, hsmem, rfl⟩ := List.mem_map.mp hx
      have hsf := List.mem_filter.mp hsmem
      exact hb s hsf.1 hsf.2
    have hsum := sum_between _ lo hi hball
    rw [List.length_map] at hsum
    have hne : ds.filter (inWindow start finish) ≠ [] := by
      intro hh
      rw [hh] at he
      exact he rfl
    have hlen : (0 : ℚ) < ((ds.filter (inWindow start finish)).length : ℚ) := by
      have hpos : 0 < (ds.filter (inWindow start finish)).length :=
        List.length_pos.mpr hne
      exact_mod_cast hpos
    rw [← hm2]
    constructor
    · rw [le_div_iff₀ hlen]
      exact hsum.1
    · rw [div_le_iff₀ hlen]
      exact hsum.2

/-- C10 witness: on `dsTwo` over `[0, 60]` the mean is 20, and with bounds
`lo = 10`, `hi = 30` the theorem applies and yields `10 ≤ 20 ∧ 20 ≤ 30`. -/
theorem compute_mean_bounds_witness : (10 : ℚ) ≤ 20 ∧ (20 : ℚ) ≤ 30 :=
  compute_mean_bounds dsTwo 0 60 10 30 20
    (by norm_num [compute_job_carbon_intensity, inWindow, dsTwo, List.filter])
    (by intro s hs hw
        simp only [dsTwo, List.mem_cons, List.not_mem_nil, or_false] at hs
        rcases hs with rfl | rfl <;> norm_num)

/-- The `idxmin` fold never returns a mean above its starting pair's mean. -/
theorem pickMin_le (l : List (Nat × ℚ)) : ∀ b : Nat × ℚ, (pickMin b l).2 ≤ b.2 := by
  induction l with
  | nil => exact fun b => le_refl b.2
  | cons q t ih =>
    intro b
    have hstep : pickMin b (q :: t) = pickMin (if q.2 < b.2 then q else b) t := rfl
    rw [hstep]
    by_cases hlt : q.2 < b.2
    · rw [if_pos hlt]
      exact le_trans (ih q) (le_of_lt hlt)
    · rw [if_neg hlt]
      exact ih b

/-- The `idxmax` fold never returns a mean below its starting pair's mean. -/
theorem le_pickMax (l : List (Nat × ℚ)) : ∀ b : Nat × ℚ, b.2 ≤ (pickMax b l).2 := by
  induction l with
  | nil => exact fun b => le_refl b.2
  | cons q t ih =>
    intro b
    have hstep : pickMax b (q :: t) = pickMax (if b.2 < q.2 then q else b) t := rfl
    rw [hstep]
    by_cases hlt : b.2 < q.2
    · rw [if_pos hlt]
      exact le_trans (le_of_lt hlt) (ih q)
    · rw [if_neg hlt]
      exact ih b

/-- C9 evidence: the three candidates `schedule_job` selects — `idxmin`,
`index[0]` and `idxmax` over the same list of per-bin means (lines 40–42) —
do satisfy `optimal ≤ naive ≤ worst`; but whenever such a selection exists,
every call with those inputs raises `AttributeError` at line 47 instead of
returning the intensities, so no successful call exists to exhibit the
claimed ordering of *returned* values. -/
theorem schedule_job_selection_ordering (dur : Nat) (ds : List Sample)
    (o n w : Nat × ℚ)
    (h : selectedCases dur ds = some (o, n, w)) :
    o.2 ≤ n.2 ∧ n.2 ≤ w.2 ∧
    ∀ st flex, (schedule_job st dur flex ds).2 = Except.error PyError.attributeError := by
  unfold selectedCases at h
  by_cases hd : dur = 0
  · rw [if_pos hd] at h
    exact Option.noConfusion h
  · rw [if_neg hd] at h
    cases hbins : resampleMean dur ds with
    | nil =>
      rw [hbins] at h
      exact Option.noConfusion h
    | cons b bs =>
      rw [hbins] at h
      injection h with h
      injection h with h1 h23
      injection h23 with h2 h3
      subst h1
      subst h2
      subst h3
      refine ⟨pickMin_le bs b, le_pickMax bs b, ?_⟩
      intro st flex
      unfold schedule_job
      rw [if_neg hd, hbins]

/-- C9 witness: on the spec §8 scenario series with `duration = 60`, the
selected candidates are `(60, 10)`, `(0, 50)`, `(180, 90)`; the theorem
applies, yielding the ordering `10 ≤ 50 ∧ 50 ≤ 90` and the `AttributeError`
of the concrete call. -/
theorem schedule_job_selection_ordering_witness :
    selectedCases 60 dsScen = some ((60, 10), (0, 50), (180, 90)) ∧
    (10 : ℚ) ≤ 50 ∧ (50 : ℚ) ≤ 90 ∧
    (schedule_job 0 60 240 dsScen).2 = Except.error PyError.attributeError := by
  have hsel : selectedCases 60 dsScen = some ((60, 10), (0, 50), (180, 90)) := by
    norm_num [selectedCases, resampleMean, binKeys, binKey, binSamples, dayStart, minTime,
      insertKey, pickMin, pickMax, dsScen, List.foldl, List.filter]
  obtain ⟨h1, h2, h3⟩ := schedule_job_selection_ordering 60 dsScen _ _ _ hsel
  exact ⟨hsel, h1, h2, h3 0 240⟩

/-- C1 counterevidence: on a series that extends before the job's
`start_time`, the "optimal" candidate the code selects and extracts at
line 46 starts at minute 0, strictly before `start_time = 120` — the code
resamples the whole dataset and never restricts the candidates to
`[start_time, start_time + flex_window]`; the call then raises
`AttributeError` at line 47 rather than returning anything. -/
theorem schedule_job_ignores_search_space :
    optimal_carbon_intensity 60 dsPre = some (0, 5) ∧ (0 : Nat) < 120 ∧
    (schedule_job 120 60 120 dsPre).2 = Except.error PyError.attributeError := by
  refine ⟨?_, by norm_num, rfl⟩
  norm_num [optimal_carbon_intensity, resampleMean, binKeys, binKey, binSamples, dayStart,
    minTime, insertKey, pickMin, dsPre, List.foldl, List.filter]

/-- C2 counterevidence: the spec §8 scenario call raises `AttributeError` at
line 47 instead of returning any `(start_time, mean_intensity)` pairs — and
even the dead return dict of lines 50–54 carries only the keys `"optimal"`,
`"naive"`, `"worst"`, no `"median"`, although the function's own docstring
promises a median case. -/
theorem schedule_job_returns_no_pairs :
    (schedule_job 0 60 240 dsScen).2 = Except.error PyError.attributeError := rfl

/-- C5 counterevidence: a concrete `schedule_job` call reaches the breakpoint
and then raises `AttributeError` at line 47: no call succeeds, so no returned
median exists and the ordering `optimal ≤ median ≤ worst` cannot hold of any
returned pairs (the dead return dict of lines 50–54 has no median entry
either). -/
theorem schedule_job_median_missing :
    (schedule_job 0 60 180 dsScen).1 = [Effect.breakpoint] ∧
    (schedule_job 0 60 180 dsScen).2 = Except.error PyError.attributeError :=
  ⟨rfl, rfl⟩

/-- C6 counterevidence: on a series extending before the job's `start_time`,
the naive start time the code selects at line 41 (`index[0]` of the globally
resampled frame) is minute 0, not the earliest timestamp 120 of the search
space `[start_time, start_time + flex_window] = [120, 240]`; and the naive
pair is never even returned, since its extraction at line 47 is exactly where
the call raises `AttributeError`. -/
theorem schedule_job_naive_global :
    naive_case_idx 60 dsPre2 = some 0 ∧ (0 : Nat) ≠ 120 ∧
    (schedule_job 120 60 120 dsPre2).2 = Except.error PyError.attributeError :=
  ⟨rfl, by norm_num, rfl⟩

/-- C7 counterevidence: with `flex_window = 30 < duration = 60` the call is
not rejected by any `InvalidJobSpec` validation — no validation exists in the
source — but proceeds into the body, reaches the interactive breakpoint of
line 45, and fails only with the unrelated `AttributeError` of line 47. -/
theorem schedule_job_no_validation :
    (schedule_job 0 60 30 dsScen).1 = [Effect.breakpoint] ∧
    (schedule_job 0 60 30 dsScen).2 = Except.error PyError.attributeError :=
  ⟨rfl, rfl⟩

/-- C8 counterevidence: a concrete `schedule_job` call performs the
interactive debugger stop `breakpoint()` (line 45 of the source, visible as
the effect trace) and then raises `AttributeError` at line 47 — the function
is neither non-interactive nor completing, as the claim requires. -/
theorem schedule_job_breakpoint_effect :
    (schedule_job 0 120 240 dsScen).1 = [Effect.breakpoint] ∧
    (schedule_job 0 120 240 dsScen).2 = Except.error PyError.attributeError :=
  ⟨rfl, rfl⟩
